import Mathlib

/-!
Shallow embedding of the Open in Safari relay server
(`mac/open_in_safari_server.py`): the origin check over configured CIDR
ranges, the shared-secret check, the URL-opening action with its scheme
validation and dry-run mode, and the three HTTP handlers, together with
proofs of the behavioural properties of the request-authorization
pipeline.

String scanning from the source (dotted-quad parsing, prefix splitting,
whitespace stripping) is embedded over `List Char` with structural
recursion so that every definition evaluates by kernel reduction.
-/

namespace OpenInSafari

/-- Version string reported by the server. -/
def VERSION : String := "1.0.0"

/-- The configuration fields the request pipeline reads: the allowed
subnet list, the shared token and the dry-run flag (from the CONFIG dict,
after environment overrides). -/
structure Config where
  allowed_subnets : List String
  shared_token : String
  dry_run : Bool
deriving DecidableEq

/-! ### Character-level parsing helpers -/

/-- Split a character list at every occurrence of `c`, keeping empty
segments, as Python str.split with a one-character separator does. -/
def splitOnChar (c : Char) : List Char → List (List Char)
  | [] => [[]]
  | x :: xs =>
    if x == c then [] :: splitOnChar c xs
    else
      match splitOnChar c xs with
      | [] => [[x]]
      | g :: gs => (x :: g) :: gs

/-- Read a run of ASCII digits as a number; any other character fails. -/
def parse_digits_aux (acc : Nat) : List Char → Option Nat
  | [] => some acc
  | c :: cs =>
    if c.isDigit = true then parse_digits_aux (acc * 10 + (c.toNat - 48)) cs
    else none

/-- One dotted-quad octet, with the checks of the Python ipaddress
module: nonempty, at most three characters, digits only, no leading
zero, value at most 255. -/
def parse_octet (cs : List Char) : Option Nat :=
  match cs with
  | [] => none
  | c0 :: rest =>
    if rest.length + 1 > 3 then none
    else if rest.length ≠ 0 ∧ c0 = '0' then none
    else
      match parse_digits_aux 0 (c0 :: rest) with
      | none => none
      | some n => if n > 255 then none else some n

/-- Dotted-quad IPv4 parsing: exactly four octets joined by dots. -/
def parse_ipv4_chars (cs : List Char) : Option Nat :=
  match splitOnChar '.' cs with
  | [a, b, c, d] =>
    match parse_octet a, parse_octet b, parse_octet c, parse_octet d with
    | some a2, some b2, some c2, some d2 =>
      some (((a2 * 256 + b2) * 256 + c2) * 256 + d2)
    | _, _, _, _ => none
  | _ => none

/-- Modelled from the Python stdlib `ipaddress.ip_address` for the IPv4
dotted-quad textual forms; the repository configures IPv4 ranges and the
IPv6 textual forms are outside this model (an IPv6 caller matches no
IPv4 range either way). -/
def ip_address (s : String) : Option Nat := parse_ipv4_chars s.data

/-- The IPv4 netmask of a prefix length: high `p` bits set, low
`32 - p` bits clear. -/
def v4mask (p : Nat) : Nat := 2 ^ 32 - 2 ^ (32 - p)

/-- An IPv4 network: the masked network address and the prefix length. -/
structure IPv4Net where
  netaddr : Nat
  prefixLen : Nat
deriving DecidableEq

/-- A digit-only prefix length, as `ipaddress` accepts after a slash
(dotted netmask forms are outside this model; the repository configures
plain prefix lengths). -/
def parse_prefixlen (cs : List Char) : Option Nat :=
  match cs with
  | [] => none
  | _ :: _ => parse_digits_aux 0 cs

/-- Modelled from `ipaddress.ip_network(cidr, strict=False)` for IPv4:
at most one slash, dotted-quad address, digit prefix at most 32
(defaulting to 32 when absent), host bits masked away rather than
rejected. -/
def ip_network (cidr : String) : Option IPv4Net :=
  match splitOnChar '/' cidr.data with
  | [addr] =>
    match parse_ipv4_chars addr with
    | some ip => some ⟨ip &&& v4mask 32, 32⟩
    | none => none
  | [addr, pl] =>
    match parse_ipv4_chars addr, parse_prefixlen pl with
    | some ip, some p => if p ≤ 32 then some ⟨ip &&& v4mask p, p⟩ else none
    | _, _ => none
  | _ => none

/-- Network membership as `ipaddress` decides `ip in network`: the
address masked by the netmask equals the network address. -/
def netContains (net : IPv4Net) (ip : Nat) : Bool :=
  decide ((ip &&& v4mask net.prefixLen) = net.netaddr)

/-- The body of the loop of `client_allowed`: one configured entry
admits the address when it parses as a network containing it; a
malformed entry is skipped (the `except ValueError: continue`). -/
def cidr_allows (ip : Nat) (cidr : String) : Bool :=
  match ip_network cidr with
  | none => false
  | some net => netContains net ip

/-- The `client_allowed` check of the server: parse the caller address (unparsable
means denied), then admit it iff some configured entry contains it. -/
def client_allowed (cfg : Config) (client_ip : String) : Bool :=
  match ip_address client_ip with
  | none => false
  | some ip => cfg.allowed_subnets.any (cidr_allows ip)

/-! ### The OS action -/

/-- Outcome of the external `/usr/bin/open -a Safari` subprocess: it ran
and produced an exit code and stderr text, or it raised (timeout
included), carrying the exception text. -/
inductive OsOutcome where
  | ran (returncode : Int) (stderr : String)
  | exc (msg : String)
deriving DecidableEq

/-- ASCII whitespace, as stripped by Python str.strip(). -/
def isSpaceChar (c : Char) : Bool :=
  c == ' ' || c == '\t' || c == '\n' || c == '\r' || c == '\x0b' || c == '\x0c'

/-- Drop leading whitespace characters. -/
def dropLeadingSpace : List Char → List Char
  | [] => []
  | c :: cs => if isSpaceChar c = true then dropLeadingSpace cs else c :: cs

/-- Python str.strip(): drop whitespace from both ends. -/
def strip (s : String) : String :=
  ⟨(dropLeadingSpace (dropLeadingSpace s.data).reverse).reverse⟩

/-- Bool-valued string prefix test over the character lists. -/
def listIsPrefixOf : List Char → List Char → Bool
  | [], _ => true
  | _ :: _, [] => false
  | a :: as, b :: bs => a == b && listIsPrefixOf as bs

/-- Python str.startswith: does `s` start with `p`. -/
def starts_with (s p : String) : Bool := listIsPrefixOf p.data s.data

/-- The `open_in_safari` action of the server, with the run of the external command
abstracted as an `OsOutcome` input; the second component counts how many
times the OS command was launched. -/
def open_in_safari (dry_run : Bool) (url : String) (os : OsOutcome) :
    (Bool × String) × Nat :=
  if ¬ (starts_with url ("http://") = true ∨ starts_with url ("https://") = true) then
    ((false, "Only http/https URLs are permitted."), 0)
  else if dry_run = true then
    ((true, "DRY_RUN: OK"), 0)
  else
    match os with
    | OsOutcome.ran rc stderr =>
      if rc ≠ 0 then
        ((false, if strip stderr = "" then "Unknown error from \x27open\x27" else strip stderr), 1)
      else ((true, "Opened in Safari"), 1)
    | OsOutcome.exc m => ((false, m), 1)

/-! ### HTTP layer -/

/-- A JSON scalar as the handlers emit them: strings and booleans. -/
inductive JVal where
  | s (v : String)
  | b (v : Bool)
deriving DecidableEq

/-- An HTTP response: status, headers in the order sent, and the JSON
object body when one is written. -/
structure Response where
  status : Nat
  headers : List (String × String)
  body : Option (List (String × JVal))
deriving DecidableEq

/-- The three headers `_set_cors` sends on every response. -/
def cors_headers : List (String × String) :=
  [("Access-Control-Allow-Origin", "*"),
   ("Access-Control-Allow-Methods", "GET, POST, OPTIONS"),
   ("Access-Control-Allow-Headers", "Content-Type, X-OpenInSafari-Token")]

/-- The content-type header `_ok` and `_reject` add after the CORS
headers. -/
def json_content_type : List (String × String) :=
  [("Content-Type", "application/json; charset=utf-8")]

/-- The `_reject` helper: the given status, CORS plus content-type headers, and the
error object body. -/
def reject_resp (code : Nat) (msg : String) : Response :=
  ⟨code, cors_headers ++ json_content_type, some [("ok", JVal.b false), ("error", JVal.s msg)]⟩

/-- The `_ok` helper: status 200, CORS plus content-type headers, and the given
payload. -/
def ok_resp (payload : List (String × JVal)) : Response :=
  ⟨200, cors_headers ++ json_content_type, some payload⟩

/-- The `do_OPTIONS` handler: 204 with the CORS headers and no body, for every
path. -/
def do_OPTIONS (_path : String) : Response :=
  ⟨204, cors_headers, none⟩

/-- The result of one body decoder (`json.loads` into a string-valued
object, or `parse_qs` with its first values taken): a field map, or a
raised decode error. -/
inductive DecodeResult where
  | ok (fields : List (String × String))
  | err
deriving DecidableEq

/-- One inbound POST request: the request path (query string included,
as `self.path` carries it), the peer address, the optional token header,
the Content-Length value, and what each body decoder yields on the raw
body. -/
structure PostRequest where
  path : String
  client_ip : String
  token_header : Option String
  content_length : Int
  json_decode : DecodeResult
  form_decode : DecodeResult
deriving DecidableEq

/-- The `_extract_token` helper: the token header value, defaulting to the empty
string when the header is absent. -/
def extract_token (h : Option String) : String := h.getD ("")

/-- The `_read_json` body reader: an empty body for a nonpositive length, else the JSON
decode, else the form decode, else the empty field map — every decode
error is collapsed, never surfaced. -/
def read_json (req : PostRequest) : List (String × String) :=
  if req.content_length ≤ 0 then []
  else
    match req.json_decode with
    | DecodeResult.ok fields => fields
    | DecodeResult.err =>
      match req.form_decode with
      | DecodeResult.ok fields => fields
      | DecodeResult.err => []

/-- First-match lookup in a string field map (the decoded bodies are
Python dicts, so keys are distinct). -/
def lookupStr (k : String) : List (String × String) → Option String
  | [] => none
  | (k2, v) :: rest => if k = k2 then some v else lookupStr k rest

/-- The url extraction `(data.get("url") or "").strip()` of the POST handler. -/
def post_url (req : PostRequest) : String :=
  strip ((lookupStr ("url") (read_json req)).getD (""))

/-- First-match lookup in a JSON object body. -/
def lookupJ (k : String) : List (String × JVal) → Option JVal
  | [] => none
  | (k2, v) :: rest => if k = k2 then some v else lookupJ k rest

/-- A named field of a response body, when the response has a body. -/
def fieldOf (r : Response) (k : String) : Option JVal :=
  match r.body with
  | none => none
  | some l => lookupJ k l

/-- The shared-secret predicate both handlers apply: disabled when the
configured secret is empty, otherwise exact equality with the caller
header. -/
def secret_ok (cfg : Config) (h : Option String) : Bool :=
  if cfg.shared_token = "" then true
  else decide (extract_token h = cfg.shared_token)

/-- The `do_GET` handler: a path starting with /ping gets the diagnostic payload
with status 200; everything else gets 404. The second component counts
OS command launches (the GET handler performs none). -/
def do_GET (cfg : Config) (path client_ip : String) (token_header : Option String) :
    Response × Nat :=
  if starts_with path ("/ping") = true then
    (ok_resp
      [("ok", JVal.b ((if cfg.shared_token ≠ "" then decide (extract_token token_header = cfg.shared_token) else true) &&
                      client_allowed cfg client_ip)),
       ("version", JVal.s VERSION),
       ("client_ip", JVal.s client_ip),
       ("allowed", JVal.b (client_allowed cfg client_ip)),
       ("token_ok", JVal.b (if cfg.shared_token ≠ "" then decide (extract_token token_header = cfg.shared_token) else true))], 0)
  else (reject_resp 404 ("Not Found"), 0)

/-- The `do_POST` handler: origin check first (403), then the secret gate (401),
then dispatch on the path: /open reads the body, rejects an empty url
(400), runs the action and reports 200 on success or 500 with the
message of the action on failure; any other path gets 404. The second
component counts OS command launches. -/
def do_POST (cfg : Config) (req : PostRequest) (os : OsOutcome) : Response × Nat :=
  if client_allowed cfg req.client_ip = false then
    (reject_resp 403 ("Forbidden: Client IP not allowed"), 0)
  else if cfg.shared_token ≠ "" ∧ extract_token req.token_header ≠ cfg.shared_token then
    (reject_resp 401 ("Unauthorized: Bad token"), 0)
  else if starts_with req.path ("/open") = true then
    if post_url req = "" then
      (reject_resp 400 ("Missing \x27url\x27"), 0)
    else if (open_in_safari cfg.dry_run (post_url req) os).1.1 = true then
      (ok_resp [("ok", JVal.b true), ("message", JVal.s (open_in_safari cfg.dry_run (post_url req) os).1.2)],
       (open_in_safari cfg.dry_run (post_url req) os).2)
    else
      (reject_resp 500 (open_in_safari cfg.dry_run (post_url req) os).1.2,
       (open_in_safari cfg.dry_run (post_url req) os).2)
  else (reject_resp 404 ("Not Found"), 0)

/-! ### Concrete fixtures used by the closed witness statements -/

/-- The default configuration of the server. -/
def cfg_demo : Config :=
  ⟨["10.211.55.0/24", "10.37.129.0/24"], "changeme123456", false⟩

/-- The default configuration with dry-run enabled. -/
def cfg_dry : Config :=
  ⟨["10.211.55.0/24", "10.37.129.0/24"], "changeme123456", true⟩

/-- A request from outside every configured range, correct token. -/
def req_outside : PostRequest :=
  ⟨"/open", "10.0.0.5", some ("changeme123456"), 30,
   DecodeResult.ok [("url", "https://example.com")], DecodeResult.err⟩

/-- A request from an allowed address with a wrong token. -/
def req_badtok : PostRequest :=
  ⟨"/open", "10.211.55.5", some ("wrong"), 30,
   DecodeResult.ok [("url", "https://example.com")], DecodeResult.err⟩

/-- An authorized request carrying an ftp url. -/
def req_ftp : PostRequest :=
  ⟨"/open", "10.211.55.5", some ("changeme123456"), 30,
   DecodeResult.ok [("url", "ftp://example.com")], DecodeResult.err⟩

/-- An authorized request whose body decodes to no fields. -/
def req_nourl : PostRequest :=
  ⟨"/open", "10.211.55.5", some ("changeme123456"), 30,
   DecodeResult.err, DecodeResult.err⟩

/-- An authorized request with a well-formed https url. -/
def req_good : PostRequest :=
  ⟨"/open", "10.211.55.5", some ("changeme123456"), 30,
   DecodeResult.ok [("url", "https://example.com")], DecodeResult.err⟩

/-- An authorized request to an unrecognized path. -/
def req_nowhere : PostRequest :=
  ⟨"/nowhere", "10.211.55.5", some ("changeme123456"), 30,
   DecodeResult.ok [("url", "https://example.com")], DecodeResult.err⟩

/-- A request to an unrecognized path from outside every range. -/
def req_nowhere_outside : PostRequest :=
  ⟨"/nowhere", "10.0.0.5", some ("changeme123456"), 30,
   DecodeResult.ok [("url", "https://example.com")], DecodeResult.err⟩

/-! ### Helper lemmas -/

/-- The inline token test of the GET handler is the shared-secret
predicate. -/
lemma token_ok_eq_secret_ok (cfg : Config) (h : Option String) :
    (if cfg.shared_token ≠ "" then decide (extract_token h = cfg.shared_token) else true) =
      secret_ok cfg h := by
  by_cases ht : cfg.shared_token = "" <;> simp [secret_ok, ht]

/-- The 401 gate of the POST handler fires exactly when the
shared-secret predicate fails. -/
lemma secret_ok_gate (cfg : Config) (h : Option String) :
    (cfg.shared_token ≠ "" ∧ extract_token h ≠ cfg.shared_token) ↔ secret_ok cfg h = false := by
  by_cases ht : cfg.shared_token = "" <;> simp [secret_ok, ht]

/-- One loop iteration of `client_allowed` admits the address iff the
entry parses to a network containing it. -/
lemma subnet_hit_iff (ip : Nat) (cidr : String) :
    cidr_allows ip cidr = true ↔
      ∃ net, ip_network cidr = some net ∧ netContains net ip = true := by
  unfold cidr_allows
  cases h : ip_network cidr <;> simp [h]

/-- Any-over-a-list is invariant under permutation. -/
lemma any_perm (f : String → Bool) :
    ∀ {l l2 : List String}, List.Perm l l2 → l.any f = l2.any f := by
  intro l l2 h
  induction h with
  | nil => rfl
  | cons x _ ih => simp [List.any_cons, ih]
  | swap x y l => cases hy : f y <;> cases hx : f x <;> simp [List.any_cons, hx, hy]
  | trans _ _ ih1 ih2 => rw [ih1, ih2]

/-- A string carrying an http or https scheme is nonempty. -/
lemma scheme_ne_empty (s : String)
    (h : starts_with s ("http://") = true ∨ starts_with s ("https://") = true) :
    s ≠ "" := by
  intro he
  rw [he] at h
  rcases h with h | h <;> exact absurd h (by decide)

/-! ### Claim theorems -/

/-- C1: a POST from a client address failing the origin check is
answered 403 with no OS action, whatever the secret header holds; the
origin check runs first, so an origin failure preempts the 401 that a
secret mismatch alone produces. -/
theorem post_origin_denied_403 (cfg : Config) (req : PostRequest) (os : OsOutcome) :
    (client_allowed cfg req.client_ip = false →
      (do_POST cfg req os).1.status = 403 ∧ (do_POST cfg req os).2 = 0) ∧
    (client_allowed cfg req.client_ip = true → cfg.shared_token ≠ "" →
      extract_token req.token_header ≠ cfg.shared_token →
      (do_POST cfg req os).1.status = 401 ∧ (do_POST cfg req os).2 = 0) := by
  constructor
  · intro h
    simp [do_POST, h, reject_resp]
  · intro h1 h2 h3
    simp [do_POST, h1, h2, h3, reject_resp]

/-- Witness for C1 at the default configuration: a caller outside both
ranges gets 403 even with the correct token, and an allowed caller with
a wrong token gets 401. -/
theorem post_origin_denied_403_witness :
    ((do_POST cfg_demo req_outside (OsOutcome.ran 0 (""))).1.status = 403 ∧
     (do_POST cfg_demo req_outside (OsOutcome.ran 0 (""))).2 = 0) ∧
    ((do_POST cfg_demo req_badtok (OsOutcome.ran 0 (""))).1.status = 401 ∧
     (do_POST cfg_demo req_badtok (OsOutcome.ran 0 (""))).2 = 0) :=
  ⟨(post_origin_denied_403 cfg_demo req_outside (OsOutcome.ran 0 (""))).1 (by decide),
   (post_origin_denied_403 cfg_demo req_badtok (OsOutcome.ran 0 (""))).2
     (by decide) (by decide) (by decide)⟩

/-- C2: the origin check admits a client string iff it parses as an
address lying in at least one configured range; an unparsable address
is denied, and the verdict is invariant under reordering the configured
ranges. -/
theorem client_allowed_iff_cidr_match (cfg : Config) (s : String) :
    (client_allowed cfg s = true ↔
      ∃ ip, ip_address s = some ip ∧ ∃ cidr ∈ cfg.allowed_subnets,
        ∃ net, ip_network cidr = some net ∧ netContains net ip = true) ∧
    (ip_address s = none → client_allowed cfg s = false) ∧
    (∀ l l2 : List String, List.Perm l l2 →
      client_allowed ⟨l, cfg.shared_token, cfg.dry_run⟩ s =
      client_allowed ⟨l2, cfg.shared_token, cfg.dry_run⟩ s) := by
  refine ⟨⟨?_, ?_⟩, ?_, ?_⟩
  · intro h
    unfold client_allowed at h
    cases hip : ip_address s with
    | none => rw [hip] at h; exact absurd h (by simp)
    | some ip =>
      rw [hip] at h
      simp only [List.any_eq_true] at h
      obtain ⟨cidr, hmem, hcid⟩ := h
      exact ⟨ip, rfl, cidr, hmem, (subnet_hit_iff ip cidr).mp hcid⟩
  · rintro ⟨ip, hip, cidr, hmem, net, hnet, hc⟩
    unfold client_allowed
    rw [hip]
    simp only [List.any_eq_true]
    exact ⟨cidr, hmem, (subnet_hit_iff ip cidr).mpr ⟨net, hnet, hc⟩⟩
  · intro h
    unfold client_allowed
    rw [h]
  · intro l l2 hperm
    unfold client_allowed
    cases hip : ip_address s with
    | none => rfl
    | some ip => exact any_perm (cidr_allows ip) hperm

/-- Witness for C2: 10.211.55.5 is admitted through the first default
range, and swapping the two default ranges does not change the
verdict. -/
theorem client_allowed_iff_cidr_match_witness :
    (∃ ip, ip_address ("10.211.55.5") = some ip ∧ ∃ cidr ∈ cfg_demo.allowed_subnets,
      ∃ net, ip_network cidr = some net ∧ netContains net ip = true) ∧
    client_allowed ⟨["10.37.129.0/24", "10.211.55.0/24"], cfg_demo.shared_token, cfg_demo.dry_run⟩
        ("10.211.55.5") =
      client_allowed ⟨["10.211.55.0/24", "10.37.129.0/24"], cfg_demo.shared_token, cfg_demo.dry_run⟩
        ("10.211.55.5") :=
  ⟨(client_allowed_iff_cidr_match cfg_demo ("10.211.55.5")).1.mp (by decide),
   (client_allowed_iff_cidr_match cfg_demo ("10.211.55.5")).2.2
     ["10.37.129.0/24", "10.211.55.0/24"] ["10.211.55.0/24", "10.37.129.0/24"]
     (List.Perm.swap _ _ _)⟩

/-- C3: the secret check passes iff the configured secret is empty or
the header value equals it exactly; the token_ok field of /ping is this
very predicate, and a POST whose origin is allowed is answered 401
exactly when the predicate fails. -/
theorem secret_check_characterisation (cfg : Config) (h : Option String) :
    (secret_ok cfg h = true ↔
      (cfg.shared_token = "" ∨ extract_token h = cfg.shared_token)) ∧
    (∀ path ip, starts_with path ("/ping") = true →
      fieldOf (do_GET cfg path ip h).1 ("token_ok") = some (JVal.b (secret_ok cfg h))) ∧
    (∀ req os, req.token_header = h → client_allowed cfg req.client_ip = true →
      ((do_POST cfg req os).1.status = 401 ↔ secret_ok cfg h = false)) := by
  refine ⟨?_, ?_, ?_⟩
  · by_cases ht : cfg.shared_token = "" <;> simp [secret_ok, ht]
  · intro path ip hp
    by_cases ht : cfg.shared_token = "" <;>
      simp [do_GET, hp, ok_resp, fieldOf, lookupJ, secret_ok, ht]
  · intro req os hth ha
    subst hth
    by_cases hs : secret_ok cfg req.token_header = true
    · have hgate : ¬ (cfg.shared_token ≠ "" ∧
          extract_token req.token_header ≠ cfg.shared_token) := by
        rw [secret_ok_gate]
        simp [hs]
      have hne : (do_POST cfg req os).1.status ≠ 401 := by
        unfold do_POST
        rw [if_neg (by simp [ha]), if_neg hgate]
        split
        · split
          · simp [reject_resp]
          · split
            · simp [ok_resp]
            · simp [reject_resp]
        · simp [reject_resp]
      simp [hs, hne]
    · have hs2 : secret_ok cfg req.token_header = false := by
        cases hEq : secret_ok cfg req.token_header
        · rfl
        · exact absurd hEq hs
      have hgate : cfg.shared_token ≠ "" ∧
          extract_token req.token_header ≠ cfg.shared_token :=
        (secret_ok_gate cfg req.token_header).mpr hs2
      unfold do_POST
      rw [if_neg (by simp [ha]), if_pos hgate]
      simp [reject_resp, hs2]

/-- Witness for C3 at the default configuration: a correct header passes
the check, /ping reports it, and an allowed caller with a wrong token
gets 401. -/
theorem secret_check_characterisation_witness :
    (cfg_demo.shared_token = "" ∨
      extract_token (some ("changeme123456")) = cfg_demo.shared_token) ∧
    fieldOf (do_GET cfg_demo ("/ping") ("10.0.0.5") (some ("changeme123456"))).1 ("token_ok") =
      some (JVal.b (secret_ok cfg_demo (some ("changeme123456")))) ∧
    ((do_POST cfg_demo req_badtok (OsOutcome.ran 0 (""))).1.status = 401 ↔
      secret_ok cfg_demo (some ("wrong")) = false) :=
  ⟨(secret_check_characterisation cfg_demo (some ("changeme123456"))).1.mp (by decide),
   (secret_check_characterisation cfg_demo (some ("changeme123456"))).2.1
     ("/ping") ("10.0.0.5") (by decide),
   (secret_check_characterisation cfg_demo (some ("wrong"))).2.2
     req_badtok (OsOutcome.ran 0 ("")) (by decide) (by decide)⟩

/-- C4: a url without an http or https scheme is rejected by the action
itself with exactly the message of the source, whatever the dry-run flag
and OS outcome, without launching the OS command; when such a request
passes authorization with a nonempty url, the POST handler surfaces the
rejection as a 500 carrying that message, still with no OS launch. -/
theorem scheme_rejected_at_action_time (cfg : Config) (req : PostRequest) (os : OsOutcome)
    (hs1 : starts_with (post_url req) ("http://") = false)
    (hs2 : starts_with (post_url req) ("https://") = false) :
    (∀ dry os2, open_in_safari dry (post_url req) os2 =
      ((false, "Only http/https URLs are permitted."), 0)) ∧
    (client_allowed cfg req.client_ip = true → secret_ok cfg req.token_header = true →
      starts_with req.path ("/open") = true → post_url req ≠ "" →
      (do_POST cfg req os).1.status = 500 ∧
      fieldOf (do_POST cfg req os).1 ("error") =
        some (JVal.s ("Only http/https URLs are permitted.")) ∧
      (do_POST cfg req os).2 = 0) := by
  have hopen : ∀ dry os2, open_in_safari dry (post_url req) os2 =
      ((false, "Only http/https URLs are permitted."), 0) := by
    intro dry os2
    unfold open_in_safari
    rw [if_pos (by simp [hs1, hs2])]
  refine ⟨hopen, ?_⟩
  intro ha hb hp hurl
  have hgate : ¬ (cfg.shared_token ≠ "" ∧
      extract_token req.token_header ≠ cfg.shared_token) := by
    rw [secret_ok_gate]
    simp [hb]
  unfold do_POST
  rw [if_neg (by simp [ha]), if_neg hgate, if_pos hp, if_neg hurl, hopen cfg.dry_run os]
  simp [reject_resp, fieldOf, lookupJ]

/-- Witness for C4 at an authorized request carrying ftp://example.com. -/
theorem scheme_rejected_at_action_time_witness :
    open_in_safari false (post_url req_ftp) (OsOutcome.ran 0 ("")) =
      ((false, "Only http/https URLs are permitted."), 0) ∧
    ((do_POST cfg_demo req_ftp (OsOutcome.ran 0 (""))).1.status = 500 ∧
     fieldOf (do_POST cfg_demo req_ftp (OsOutcome.ran 0 (""))).1 ("error") =
       some (JVal.s ("Only http/https URLs are permitted.")) ∧
     (do_POST cfg_demo req_ftp (OsOutcome.ran 0 (""))).2 = 0) :=
  ⟨(scheme_rejected_at_action_time cfg_demo req_ftp (OsOutcome.ran 0 (""))
      (by decide) (by decide)).1 false (OsOutcome.ran 0 ("")),
   (scheme_rejected_at_action_time cfg_demo req_ftp (OsOutcome.ran 0 (""))
      (by decide) (by decide)).2 (by decide) (by decide) (by decide) (by decide)⟩

/-- C5: an authorized /open POST whose body yields no url, or a url that
strips to empty, is answered 400 with no OS launch; the body reader
collapses every decode failure: nonpositive length or both decoders
failing give the empty field map, a JSON failure falls back to the form
decode, and a JSON success is taken as is. -/
theorem missing_url_yields_400 (cfg : Config) (req : PostRequest) (os : OsOutcome)
    (ha : client_allowed cfg req.client_ip = true)
    (hb : secret_ok cfg req.token_header = true)
    (hp : starts_with req.path ("/open") = true) :
    (post_url req = "" →
      (do_POST cfg req os).1.status = 400 ∧ (do_POST cfg req os).2 = 0) ∧
    (lookupStr ("url") (read_json req) = none → post_url req = "") ∧
    (req.content_length ≤ 0 → read_json req = []) ∧
    (req.json_decode = DecodeResult.err → req.form_decode = DecodeResult.err →
      read_json req = []) ∧
    (∀ f, 0 < req.content_length → req.json_decode = DecodeResult.err →
      req.form_decode = DecodeResult.ok f → read_json req = f) ∧
    (∀ f, 0 < req.content_length → req.json_decode = DecodeResult.ok f →
      read_json req = f) := by
  have hgate : ¬ (cfg.shared_token ≠ "" ∧
      extract_token req.token_header ≠ cfg.shared_token) := by
    rw [secret_ok_gate]
    simp [hb]
  refine ⟨?_, ?_, ?_, ?_, ?_, ?_⟩
  · intro hurl
    unfold do_POST
    rw [if_neg (by simp [ha]), if_neg hgate, if_pos hp, if_pos hurl]
    simp [reject_resp]
  · intro hl
    unfold post_url
    rw [hl]
    rfl
  · intro hcl
    unfold read_json
    rw [if_pos hcl]
  · intro hj hf
    unfold read_json
    rw [hj, hf]
    split <;> rfl
  · intro f hcl hj hf
    unfold read_json
    rw [hj, hf, if_neg (by omega)]
  · intro f hcl hj
    unfold read_json
    rw [hj, if_neg (by omega)]

/-- Witness for C5 at an authorized request whose both decoders fail. -/
theorem missing_url_yields_400_witness :
    ((do_POST cfg_demo req_nourl (OsOutcome.ran 0 (""))).1.status = 400 ∧
     (do_POST cfg_demo req_nourl (OsOutcome.ran 0 (""))).2 = 0) ∧
    read_json req_nourl = [] :=
  ⟨(missing_url_yields_400 cfg_demo req_nourl (OsOutcome.ran 0 (""))
      (by decide) (by decide) (by decide)).1 (by decide),
   (missing_url_yields_400 cfg_demo req_nourl (OsOutcome.ran 0 (""))
      (by decide) (by decide) (by decide)).2.2.2.1 rfl rfl⟩

/-- C6: a GET on a /ping path never launches the OS command and is
always answered 200 with a body carrying version, client_ip, allowed,
token_ok, and ok, where ok is the conjunction of the origin verdict and
the token verdict. -/
theorem ping_is_diagnostic_only (cfg : Config) (path ip : String) (tok : Option String)
    (hp : starts_with path ("/ping") = true) :
    (do_GET cfg path ip tok).2 = 0 ∧
    (do_GET cfg path ip tok).1.status = 200 ∧
    fieldOf (do_GET cfg path ip tok).1 ("version") = some (JVal.s VERSION) ∧
    fieldOf (do_GET cfg path ip tok).1 ("client_ip") = some (JVal.s ip) ∧
    fieldOf (do_GET cfg path ip tok).1 ("allowed") =
      some (JVal.b (client_allowed cfg ip)) ∧
    fieldOf (do_GET cfg path ip tok).1 ("token_ok") =
      some (JVal.b (secret_ok cfg tok)) ∧
    fieldOf (do_GET cfg path ip tok).1 ("ok") =
      some (JVal.b (client_allowed cfg ip && secret_ok cfg tok)) := by
  by_cases ht : cfg.shared_token = "" <;>
    simp [do_GET, hp, ok_resp, fieldOf, lookupJ, secret_ok, ht, Bool.and_comm]

/-- Witness for C6: a /ping probe from an unauthorized caller is still
answered 200, reporting the failure only in the body. -/
theorem ping_is_diagnostic_only_witness :
    (do_GET cfg_demo ("/ping") ("10.0.0.5") none).2 = 0 ∧
    (do_GET cfg_demo ("/ping") ("10.0.0.5") none).1.status = 200 ∧
    fieldOf (do_GET cfg_demo ("/ping") ("10.0.0.5") none).1 ("version") =
      some (JVal.s VERSION) ∧
    fieldOf (do_GET cfg_demo ("/ping") ("10.0.0.5") none).1 ("client_ip") =
      some (JVal.s ("10.0.0.5")) ∧
    fieldOf (do_GET cfg_demo ("/ping") ("10.0.0.5") none).1 ("allowed") =
      some (JVal.b (client_allowed cfg_demo ("10.0.0.5"))) ∧
    fieldOf (do_GET cfg_demo ("/ping") ("10.0.0.5") none).1 ("token_ok") =
      some (JVal.b (secret_ok cfg_demo none)) ∧
    fieldOf (do_GET cfg_demo ("/ping") ("10.0.0.5") none).1 ("ok") =
      some (JVal.b (client_allowed cfg_demo ("10.0.0.5") && secret_ok cfg_demo none)) :=
  ping_is_diagnostic_only cfg_demo ("/ping") ("10.0.0.5") none (by decide)

/-- C7 as frozen fails on the code: path recognition is by prefix, so a
GET to /pingpong — a method/path pair other than GET /ping — is answered
200 rather than 404, and a POST to an unrecognized path from a
disallowed address is answered 403 rather than 404. -/
theorem unrecognized_path_404_counterexample :
    (do_GET cfg_demo ("/pingpong") ("10.0.0.5") none).1.status = 200 ∧
    (do_POST cfg_demo req_nowhere_outside (OsOutcome.ran 0 (""))).1.status = 403 := by
  decide

/-- C7 amended: a GET whose path does not start with /ping is answered
404 with no OS launch, and a POST that passes the origin and secret
checks and whose path does not start with /open is answered 404 with no
OS launch; recognition is by path prefix, and an unauthorized POST is
answered 403 or 401 before the path is examined. -/
theorem unrecognized_path_404 (cfg : Config) (path ip : String) (tok : Option String)
    (req : PostRequest) (os : OsOutcome) :
    (starts_with path ("/ping") = false →
      (do_GET cfg path ip tok).1.status = 404 ∧ (do_GET cfg path ip tok).2 = 0) ∧
    (client_allowed cfg req.client_ip = true → secret_ok cfg req.token_header = true →
      starts_with req.path ("/open") = false →
      (do_POST cfg req os).1.status = 404 ∧ (do_POST cfg req os).2 = 0) := by
  constructor
  · intro hp
    simp [do_GET, hp, reject_resp]
  · intro ha hb hp
    have hgate : ¬ (cfg.shared_token ≠ "" ∧
        extract_token req.token_header ≠ cfg.shared_token) := by
      rw [secret_ok_gate]
      simp [hb]
    unfold do_POST
    rw [if_neg (by simp [ha]), if_neg hgate, if_neg (by simp [hp])]
    simp [reject_resp]

/-- Witness for the amended C7: a GET to /status and an authorized POST
to /nowhere both get 404. -/
theorem unrecognized_path_404_witness :
    ((do_GET cfg_demo ("/status") ("10.0.0.5") none).1.status = 404 ∧
     (do_GET cfg_demo ("/status") ("10.0.0.5") none).2 = 0) ∧
    ((do_POST cfg_demo req_nowhere (OsOutcome.ran 0 (""))).1.status = 404 ∧
     (do_POST cfg_demo req_nowhere (OsOutcome.ran 0 (""))).2 = 0) :=
  ⟨(unrecognized_path_404 cfg_demo ("/status") ("10.0.0.5") none
      req_nowhere (OsOutcome.ran 0 (""))).1 (by decide),
   (unrecognized_path_404 cfg_demo ("/status") ("10.0.0.5") none
      req_nowhere (OsOutcome.ran 0 (""))).2 (by decide) (by decide) (by decide)⟩

/-- C8: with dry-run enabled, an authorized /open POST with a url
carrying an http or https scheme is answered 200 with ok true and the
dry-run message, and the OS command is never launched, whatever outcome
a real launch would have had. -/
theorem dry_run_simulates_success (cfg : Config) (req : PostRequest) (os : OsOutcome)
    (hdry : cfg.dry_run = true)
    (ha : client_allowed cfg req.client_ip = true)
    (hb : secret_ok cfg req.token_header = true)
    (hp : starts_with req.path ("/open") = true)
    (hs : starts_with (post_url req) ("http://") = true ∨
      starts_with (post_url req) ("https://") = true) :
    (do_POST cfg req os).2 = 0 ∧
    (do_POST cfg req os).1.status = 200 ∧
    fieldOf (do_POST cfg req os).1 ("ok") = some (JVal.b true) ∧
    fieldOf (do_POST cfg req os).1 ("message") = some (JVal.s ("DRY_RUN: OK")) := by
  have hgate : ¬ (cfg.shared_token ≠ "" ∧
      extract_token req.token_header ≠ cfg.shared_token) := by
    rw [secret_ok_gate]
    simp [hb]
  have hurl : post_url req ≠ "" := scheme_ne_empty _ hs
  have hopen : open_in_safari cfg.dry_run (post_url req) os = ((true, "DRY_RUN: OK"), 0) := by
    unfold open_in_safari
    rw [if_neg (not_not_intro hs), if_pos hdry]
  unfold do_POST
  rw [if_neg (by simp [ha]), if_neg hgate, if_pos hp, if_neg hurl, hopen]
  simp [ok_resp, fieldOf, lookupJ]

/-- Witness for C8: the dry-run configuration answers 200 with the
dry-run message even when a real launch would have raised. -/
theorem dry_run_simulates_success_witness :
    (do_POST cfg_dry req_good (OsOutcome.exc ("would-have-failed"))).2 = 0 ∧
    (do_POST cfg_dry req_good (OsOutcome.exc ("would-have-failed"))).1.status = 200 ∧
    fieldOf (do_POST cfg_dry req_good (OsOutcome.exc ("would-have-failed"))).1 ("ok") =
      some (JVal.b true) ∧
    fieldOf (do_POST cfg_dry req_good (OsOutcome.exc ("would-have-failed"))).1 ("message") =
      some (JVal.s ("DRY_RUN: OK")) :=
  dry_run_simulates_success cfg_dry req_good (OsOutcome.exc ("would-have-failed"))
    (by decide) (by decide) (by decide) (by decide) (Or.inr (by decide))

/-- C9: every response of the three handlers carries the CORS headers —
any origin, methods GET/POST/OPTIONS, headers Content-Type and the
token header — and OPTIONS on any path is 204 with exactly the CORS
headers and no body. -/
theorem cors_on_every_response (cfg : Config) (path ip : String) (tok : Option String)
    (req : PostRequest) (os : OsOutcome) (path2 : String) :
    (do_GET cfg path ip tok).1.headers = cors_headers ++ json_content_type ∧
    (do_POST cfg req os).1.headers = cors_headers ++ json_content_type ∧
    do_OPTIONS path2 = ⟨204, cors_headers, none⟩ := by
  refine ⟨?_, ?_, rfl⟩
  · unfold do_GET
    split <;> rfl
  · unfold do_POST
    repeat' split
    all_goals rfl

/-- C10: the origin check is total over its configuration: a subnet
entry that does not parse as a network is skipped, behaving exactly as
if it were absent, and alone it admits no client address. -/
theorem malformed_subnet_skipped (t : String) (d : Bool) (s bad : String)
    (l1 l2 : List String) (hbad : ip_network bad = none) :
    client_allowed ⟨l1 ++ bad :: l2, t, d⟩ s = client_allowed ⟨l1 ++ l2, t, d⟩ s ∧
    client_allowed ⟨[bad], t, d⟩ s = false := by
  constructor
  · unfold client_allowed
    cases hip : ip_address s with
    | none => rfl
    | some ip => simp [List.any_append, List.any_cons, cidr_allows, hbad]
  · unfold client_allowed
    cases hip : ip_address s with
    | none => rfl
    | some ip => simp [cidr_allows, hbad]

/-- Witness for C10: a garbage entry next to the first default range
changes nothing, and alone admits nobody. -/
theorem malformed_subnet_skipped_witness :
    (client_allowed ⟨["10.211.55.0/24"] ++ "garbage/xx" :: [], "changeme123456", false⟩
        ("10.211.55.5") =
      client_allowed ⟨["10.211.55.0/24"] ++ [], "changeme123456", false⟩ ("10.211.55.5")) ∧
    client_allowed ⟨["garbage/xx"], "changeme123456", false⟩ ("10.211.55.5") = false :=
  malformed_subnet_skipped ("changeme123456") false ("10.211.55.5") ("garbage/xx")
    ["10.211.55.0/24"] [] (by decide)

end OpenInSafari
